import Mathlib

/-!
Verification of the QEMU VM instance driver
(`internal/server/instance/drivers/driver_qemu.go`).

Each section embeds the Go code it verifies as executable Lean definitions:
pure helpers become functions, the stateful control flow of `start`,
`migrateSendLive`, `setCPUs`, `deviceDetachBlockDevice`, `pid`,
`statusCode` and `nextVsockID` becomes explicit state passing with failure
injection (an environment record carries one flag per fallible call), and
monitor (QMP) interaction is recorded as a command trace.
-/

namespace Incus

/-! ## Common string helpers (Go `strings` / `bytes` package behaviour) -/

/-- Decides whether `pat` is a prefix of `l` (Go `strings.HasPrefix` on char lists). -/
def listIsPfxOf : List Char → List Char → Bool
  | [], _ => true
  | _ :: _, [] => false
  | p :: ps, c :: cs => p == c && listIsPfxOf ps cs

/-- Decides whether `pat` occurs as a contiguous substring of `l`
(Go `bytes.Contains`). -/
def listContainsSub (l pat : List Char) : Bool :=
  match l with
  | [] => pat.isEmpty
  | _ :: cs => listIsPfxOf pat l || listContainsSub cs pat

/-- Go `bytes.Contains` on strings. -/
def bytesContains (s sub : String) : Bool :=
  listContainsSub s.data sub.data

/-- Parses a non-empty run of decimal digits (helper for the Go parsers). -/
def parseDigits : List Char → Option Nat
  | [] => none
  | cs =>
    if cs.all (fun c => c.isDigit) then
      some (cs.foldl (fun acc c => acc * 10 + (c.toNat - 48)) 0)
    else
      none

/-- Go `strings.TrimSpace` on a char list: drop leading and trailing
whitespace. -/
def trimChars (cs : List Char) : List Char :=
  ((cs.dropWhile Char.isWhitespace).reverse.dropWhile Char.isWhitespace).reverse

/-- Go `strconv.Atoi` composed with `strings.TrimSpace`, as used by `pid()`:
an optional sign followed by decimal digits. -/
def goAtoi (s : String) : Option Int :=
  let cs := trimChars s.data
  match cs with
  | '-' :: rest => (parseDigits rest).map (fun n => -(n : Int))
  | '+' :: rest => (parseDigits rest).map (fun n => (n : Int))
  | _ => (parseDigits cs).map (fun n => (n : Int))

/-- Go `strconv.ParseUint(s, 10, 32)` as used by `getVsockID`: decimal digits
only, value below `2 ^ 32`. -/
def goParseUint32 (s : String) : Option Nat :=
  match parseDigits s.data with
  | none => none
  | some n => if n < 2 ^ 32 then some n else none

/-! ## Operation-lock creation call sites (claim C3)

`driver_qemu.go` creates instance operation locks through
`operationlock.CreateWaitGet(project, name, parentOp, action, inheritableActions,
reusable, reuseExisting)` and `operationlock.Create(project, name, parentOp,
action, reusable, reuseExisting)` (the latter passes no inheritable actions).
The records below transcribe every such call site in the file, keyed by the
enclosing method. -/

/-- Operation-lock action tags used by the driver. -/
inductive Action where
  | create
  | start
  | stop
  | restart
  | restore
  | update
  | delete
  | migrate
  | consoleRetrieve
deriving DecidableEq, Repr

/-- One lock-creation call site: the enclosing method, the action of the lock,
the inheritable-action list passed, and the `reusable` / `reuseExisting`
flags. -/
structure LockCall where
  method : String
  action : Action
  inheritable : List Action
  reusable : Bool
  reuseExisting : Bool
deriving DecidableEq, Repr

/-- `onStop` (line 735): `CreateWaitGet(..., ActionRestart, nil, true, false)`. -/
def onStopLockCall : LockCall :=
  { method := "onStop", action := .restart, inheritable := [],
    reusable := true, reuseExisting := false }

/-- `Shutdown` (line 799):
`CreateWaitGet(..., ActionStop, [ActionRestart], true, true)`. -/
def shutdownLockCall : LockCall :=
  { method := "Shutdown", action := .stop, inheritable := [.restart],
    reusable := true, reuseExisting := true }

/-- `start` (line 1282):
`CreateWaitGet(..., ActionStart, [ActionRestart, ActionRestore], false, false)`. -/
def startLockCall : LockCall :=
  { method := "start", action := .start, inheritable := [.restart, .restore],
    reusable := false, reuseExisting := false }

/-- `Stop` (line 5368): `CreateWaitGet(..., ActionStop,
[ActionRestart, ActionRestore, ActionMigrate], false, true)`. -/
def stopLockCall : LockCall :=
  { method := "Stop", action := .stop,
    inheritable := [.restart, .restore, .migrate],
    reusable := false, reuseExisting := true }

/-- `Restore` (lines 5573 and 5623): `Create(..., ActionRestore, false, false)`
(no inheritable actions; two identical call sites). -/
def restoreLockCall : LockCall :=
  { method := "Restore", action := .restore, inheritable := [],
    reusable := false, reuseExisting := false }

/-- `Update` (line 5946): `CreateWaitGet(..., ActionUpdate,
[ActionRestart, ActionRestore], false, false)`. -/
def updateLockCall : LockCall :=
  { method := "Update", action := .update, inheritable := [.restart, .restore],
    reusable := false, reuseExisting := false }

/-- `Delete` (line 6747): `CreateWaitGet(..., ActionDelete, nil, false, false)`. -/
def deleteLockCall : LockCall :=
  { method := "Delete", action := .delete, inheritable := [],
    reusable := false, reuseExisting := false }

/-- `MigrateSend` (line 7140):
`CreateWaitGet(..., ActionMigrate, nil, false, true)`. -/
def migrateSendLockCall : LockCall :=
  { method := "MigrateSend", action := .migrate, inheritable := [],
    reusable := false, reuseExisting := true }

/-- `LockExclusive` (line 8843): `Create(..., ActionCreate, false, false)`. -/
def lockExclusiveLockCall : LockCall :=
  { method := "LockExclusive", action := .create, inheritable := [],
    reusable := false, reuseExisting := false }

/-- `ConsoleLog` (line 10086): `CreateWaitGet(..., ActionConsoleRetrieve,
[ActionRestart, ActionRestore, ActionMigrate], false, true)`. -/
def consoleLogLockCall : LockCall :=
  { method := "ConsoleLog", action := .consoleRetrieve,
    inheritable := [.restart, .restore, .migrate],
    reusable := false, reuseExisting := true }

/-- Every operation-lock creation call site in `driver_qemu.go`, in source
order (the `Restore` call site appears twice in the file with identical
arguments). -/
def qemuLockCalls : List LockCall :=
  [onStopLockCall, shutdownLockCall, startLockCall, stopLockCall,
   restoreLockCall, restoreLockCall, updateLockCall, deleteLockCall,
   migrateSendLockCall, lockExclusiveLockCall, consoleLogLockCall]

/-! ## `pid()` (claim C6, lines 5289-5318) -/

/-- Result of a Go `os.ReadFile` call: file absent, some other read error, or
the file contents. -/
inductive ReadResult where
  | notExist
  | readErr
  | content (s : String)
deriving DecidableEq, Repr

/-- Environment of a `pid()` call: the `qemu.pid` file, the
`/proc/<pid>/cmdline` files, and the instance's `volatile.uuid`. -/
structure PidEnv where
  pidFile : ReadResult
  procCmdline : Int → ReadResult
  uuid : String

/-- The literal searched for in the process command line. -/
def qemuSearchString : String := "qemu-system"

/-- The error returned when the command line does not match. -/
def pidMismatchErr : String := "PID does not match the running process"

/-- Shallow embedding of `(*qemu).pid()` (driver_qemu.go lines 5289-5318).
Returns the pair (pid, error): `(0, none)` when the PID file or the process
is gone, `(-1, some e)` on errors, and `(p, none)` when the command line of
process `p` contains both `qemu-system` and the instance UUID. -/
def qemuPid (env : PidEnv) : Int × Option String :=
  match env.pidFile with
  | .notExist => (0, none)
  | .readErr => (-1, some "read error")
  | .content pidStr =>
    match goAtoi pidStr with
    | none => (-1, some "atoi error")
    | some pid =>
      match env.procCmdline pid with
      | .notExist => (0, none)
      | .readErr => (0, none)
      | .content cmdLine =>
        if bytesContains cmdLine qemuSearchString && bytesContains cmdLine env.uuid then
          (pid, none)
        else
          (-1, some pidMismatchErr)

/-! ## `statusCode()` (claim C10, lines 9081-9140) -/

/-- Instance status codes (`api.StatusCode` values used by the driver). -/
inductive StatusCode where
  | error
  | stopped
  | running
  | ready
  | frozen
deriving DecidableEq, Repr

/-- Outcome of connecting to the QMP monitor and querying its status:
connect failure, `ErrMonitorDisconnect` from `Status()`, another `Status()`
error, or the status string. -/
inductive QmpResult where
  | connectFail
  | statusDisconnect
  | statusErr
  | status (s : String)
deriving DecidableEq, Repr

/-- Environment of a `statusCode()` call. `opAction` is the action of the
operation lock currently held for the instance (`operationlock.Get`), if any;
`lastStateReady` is the value of
`util.IsTrue(d.LocalConfig()["volatile.last_state.ready"])`;
`pidPositive` tells whether `d.pid()` reports a live process. -/
structure StatusEnv where
  opAction : Option Action
  lastStateReady : Bool
  qmp : QmpResult
  pidPositive : Bool

/-- The QMP-consulting tail of `statusCode()` (lines 9098-9139), reached only
when no Start/Stop operation lock short-circuits the answer. -/
def statusCodeQmp (env : StatusEnv) : StatusCode :=
  match env.qmp with
  | .connectFail => if env.pidPositive then .error else .stopped
  | .statusDisconnect => if env.pidPositive then .error else .stopped
  | .statusErr => .error
  | .status s =>
    if s = "prelaunch" ∨ s = "running" then
      if s = "running" ∧ env.lastStateReady then .ready else .running
    else if s = "inmigrate" ∨ s = "postmigrate" ∨ s = "finish-migrate"
        ∨ s = "save-vm" ∨ s = "suspended" ∨ s = "paused" then
      .frozen
    else
      .error

/-- Shallow embedding of `(*qemu).statusCode()` (lines 9081-9140): an ongoing
Start operation reports Stopped, an ongoing Stop operation reports
Ready/Running, and otherwise QMP is consulted. -/
def statusCode (env : StatusEnv) : StatusCode :=
  match env.opAction with
  | some .start => .stopped
  | some .stop => if env.lastStateReady then .ready else .running
  | _ => statusCodeQmp env

/-! ## Vsock context IDs (claim C5, lines 8953-9073) -/

/-- `reservedVsockID` (lines 8955-8957): IDs 0, 1 and 2 are reserved. -/
def reservedVsockID (vsockID : Nat) : Bool :=
  vsockID ≤ 2

/-- Result of `acquireVsockID` for a candidate ID: the ioctl on
`/dev/vhost-vsock` succeeds, fails with `EADDRINUSE` (ID already in use), or
fails with another error. -/
inductive AcqResult where
  | acquired
  | inUse
  | ioctlErr
deriving DecidableEq, Repr

/-- Modelled from the spec: `localUtil.GetStableRandomGenerator` is not among
the provided sources; per the spec it is "a deterministic PRNG seeded with the
instance UUID". `stableSeed` derives the seed from the UUID string alone. -/
def stableSeed (uuid : String) : Nat :=
  uuid.data.foldl (fun a c => (a * 131 + c.toNat) % 2 ^ 64) 5381

/-- One step of the modelled 64-bit linear congruential generator. -/
def lcgStep (s : Nat) : Nat :=
  (6364136223846793005 * s + 1442695040888963407) % 2 ^ 64

/-- Internal generator state after `n + 1` steps from the UUID-derived seed. -/
def stableState (uuid : String) : Nat → Nat
  | 0 => lcgStep (stableSeed uuid)
  | n + 1 => lcgStep (stableState uuid n)

/-- The `n`-th `r.Uint32()` output of the modelled generator: a deterministic
function of the UUID alone. -/
def stableRandUint32 (uuid : String) (n : Nat) : Nat :=
  stableState uuid n / 2 ^ 32

/-- Environment of a `nextVsockID` call: the stored `volatile.vsock_id`,
the instance UUID (`uuidValid` tells whether `uuid.Parse` accepts it) and the
acquisition oracle (the state of `/dev/vhost-vsock`). -/
structure VsockEnv where
  localVsockID : Option String
  uuid : String
  uuidValid : Bool
  acquire : Nat → AcqResult

/-- Shallow embedding of `getVsockID` (lines 8960-8976). -/
def getVsockID (localVsockID : Option String) : Except String Nat :=
  match localVsockID with
  | none => .error "Context ID not set in volatile.vsock_id"
  | some s =>
    match goParseUint32 s with
    | none => .error "Failed to parse volatile.vsock_id"
    | some vsockID =>
      if reservedVsockID vsockID then
        .error "Failed to use reserved vsock Context ID"
      else
        .ok vsockID

/-- Shallow embedding of `acquireExistingVsockID` (lines 9012-9025) combined
with the guard `vsockID != 0 && vsockF != nil` of `nextVsockID` (line 9035):
`some id` exactly when the stored ID was parsed, is unreserved, and its
acquisition succeeded; in every other case (`getVsockID` error, ioctl error,
or ID in use) `nextVsockID` falls through to the allocation loop. -/
def acquireExistingVsockID (env : VsockEnv) : Option Nat :=
  match getVsockID env.localVsockID with
  | .error _ => none
  | .ok vsockID =>
    match env.acquire vsockID with
    | .acquired => some vsockID
    | .inUse => none
    | .ioctlErr => none

/-- The allocation loop of `nextVsockID` (lines 9052-9072). `i` counts the
`r.Uint32()` calls made so far; `fuel` bounds the number of iterations before
the 5-second wall-clock timeout of the loop fires. -/
def nextVsockIDLoop (acquire : Nat → AcqResult) (uuid : String) :
    Nat → Nat → Except String Nat
  | _, 0 => .error "Timeout exceeded whilst trying to acquire the next vsock Context ID"
  | i, fuel + 1 =>
    let candidateVsockID := stableRandUint32 uuid i
    if reservedVsockID candidateVsockID then
      nextVsockIDLoop acquire uuid (i + 1) fuel
    else
      match acquire candidateVsockID with
      | .ioctlErr => .error "Failed ioctl syscall to vhost socket"
      | .acquired => .ok candidateVsockID
      | .inUse => nextVsockIDLoop acquire uuid (i + 1) fuel

/-- Shallow embedding of `nextVsockID` (lines 9029-9073): reacquire the stored
ID if possible, otherwise draw candidates from the UUID-seeded generator. -/
def nextVsockID (env : VsockEnv) (fuel : Nat) : Except String Nat :=
  match acquireExistingVsockID env with
  | some vsockID => .ok vsockID
  | none =>
    if env.uuidValid then
      nextVsockIDLoop env.acquire env.uuid 0 fuel
    else
      .error "Failed to parse instance UUID from volatile.uuid"

/-! ## `volatile.vm.definition` handling in `start` (claim C4, lines
1676-1683, 1708-1715 and 1952-1967) -/

/-- Environment of one `start(stateful, op)` run, restricted to the machine
definition handling: the `stateful` parameter, the instance's `d.stateful`
flag, the stored `localConfig["volatile.vm.definition"]` (empty when unset)
and the machine type `monitor.MachineDefinition()` reports after launch. -/
structure MachineDefEnv where
  statefulParam : Bool
  dStateful : Bool
  storedDefinition : String
  qemuReported : String
deriving DecidableEq, Repr

/-- The `machineDefinition` string passed to `generateQemuConfig` (lines
1676-1683): the stored definition when `stateful` is set, empty otherwise. -/
def startMachineDefinition (env : MachineDefEnv) : String :=
  if env.statefulParam then env.storedDefinition else ""

/-- The `stateful` flag after the adjustment of lines 1708-1715: a stateful
start with no saved state (`!d.stateful`) proceeds as a normal start. -/
def startEffectiveStateful (env : MachineDefEnv) : Bool :=
  env.statefulParam && env.dStateful

/-- The value of `volatile.vm.definition` after the run (lines 1952-1967):
every non-stateful start overwrites it with what QEMU reports; a stateful
restore leaves it unchanged. -/
def startRecordedDefinition (env : MachineDefEnv) : String :=
  if startEffectiveStateful env then env.storedDefinition else env.qemuReported

/-! ## The `initial.*` device-configuration guard in `Update` (claim C9,
lines 6136-6161) -/

/-- A device: an association list from config key to value (Go
`map[string]string`; the embedding fixes an iteration order, which only
affects which of several error messages is reported first). -/
abbrev DeviceCfg := List (String × String)

/-- The device diff computed by `oldExpandedDevices.Update` just before the
guard: the updated keys across device pairs, the added devices and the
removed devices (each an association list from device name to device). -/
structure UpdateDiff where
  allUpdatedKeys : List String
  addDevices : List (String × DeviceCfg)
  removeDevices : List (String × DeviceCfg)

/-- Go `strings.HasPrefix s pfx` (kernel-reducible). -/
def strHasPfx (s pfx : String) : Bool :=
  listIsPfxOf pfx.data s.data

/-- Modelled from the spec: `util.StringPrefixInSlice` is not among the
provided sources; it reports whether any element of the slice starts with the
given prefix (its single use at line 6137 gates the `initial.` check). -/
def stringPfxInSlice (pfx : String) (l : List String) : Bool :=
  l.any fun s => strHasPfx s pfx

/-- Map lookup in an association list (Go map indexing with `ok` flag). -/
def assocLookup (l : List (String × String)) (k : String) : Option String :=
  (l.find? fun p => p.1 == k).map Prod.snd

/-- Device lookup in an association list of devices. -/
def devLookup (devs : List (String × DeviceCfg)) (n : String) : Option DeviceCfg :=
  (devs.find? fun p => p.1 == n).map Prod.snd

/-- The inner loop body of the guard (lines 6138-6160) for one added device:
the first error triggered by one of its `initial.`-prefixed keys, if any. -/
def checkDevInitial (removeDevices : List (String × DeviceCfg))
    (devName : String) (newDev : DeviceCfg) : Option String :=
  newDev.findSome? fun kv =>
    if strHasPfx kv.1 "initial." = false then
      none
    else
      match devLookup removeDevices devName with
      | none =>
        some "New device with initial configuration cannot be added once the instance is created"
      | some oldDev =>
        match assocLookup oldDev kv.1 with
        | none =>
          some "Device initial configuration cannot be added once the instance is created"
        | some oldVal =>
          if kv.2 ≠ "" ∧ kv.2 ≠ oldVal then
            some "Device initial configuration cannot be modified once the instance is created"
          else
            none

/-- Shallow embedding of the guard at lines 6136-6161 of `Update`: the error
it returns, if any. When it returns an error, `Update` aborts before
`devicesUpdate`, leaving the instance's devices unchanged. -/
def initialConfigCheck (diff : UpdateDiff) : Option String :=
  if stringPfxInSlice "initial." diff.allUpdatedKeys then
    diff.addDevices.findSome? fun nd => checkDevInitial diff.removeDevices nd.1 nd.2
  else
    none

/-! ## `setCPUs` (claim C8, lines 9875-10003) -/

/-- Decimal digit rendering of a natural number (kernel-reducible model of Go
`fmt.Sprintf("%d", .)`; the first argument is recursion fuel, at least the
number itself). -/
def natDigitsGo : Nat → Nat → List Char → List Char
  | 0, _, acc => acc
  | fuel + 1, n, acc =>
    if n < 10 then
      Char.ofNat (48 + n) :: acc
    else
      natDigitsGo fuel (n / 10) (Char.ofNat (48 + n % 10) :: acc)

/-- Go `fmt.Sprintf("%d", n)` for naturals. -/
def natToStr (n : Nat) : String :=
  ⟨natDigitsGo (n + 1) n []⟩

/-- Go `fmt.Sprintf("%d", i)` for integers. -/
def intToStr : Int → String
  | .ofNat n => natToStr n
  | .negSucc n => ⟨'-' :: (natToStr (n + 1)).data⟩

/-- Splits a char list on `/` (Go `strings.Split(s, "/")`). -/
def splitOnSlash : List Char → List (List Char)
  | [] => [[]]
  | c :: cs =>
    let rest := splitOnSlash cs
    if c = '/' then
      [] :: rest
    else
      match rest with
      | [] => [[c]]
      | r :: rs => (c :: r) :: rs

/-- The last `/`-separated field of a string (`fields[len(fields)-1]`). -/
def lastSlashField (s : String) : String :=
  ⟨(splitOnSlash s.data).getLastD []⟩

/-- One entry of the `query-hotpluggable-cpus` response
(`qmp.HotpluggableCPU`). -/
structure HotCPU where
  qomPath : String
  socketID : Int
  coreID : Int
  threadID : Int
  typ : String
deriving DecidableEq, Repr

/-- A monitor command issued by `setCPUs`, or its 1-second sleep. -/
inductive CpuCmd where
  | deviceAdd (id : String) (driver : String) (coreID : Int)
      (socketThread : Option (Int × Int))
  | deviceDel (id : String)
  | sleepSecond
deriving DecidableEq, Repr

/-- The device ID used when hotplugging a CPU (line 9935:
`fmt.Sprintf("cpu%d%d%d", socket, core, thread)`). -/
def cpuDevID (c : HotCPU) : String :=
  "cpu" ++ intToStr c.socketID ++ intToStr c.coreID ++ intToStr c.threadID

/-- The `device_add` command for hotplugging one CPU (lines 9935-9949);
socket-id and thread-id are omitted on s390x. -/
def cpuAddCmd (s390x : Bool) (c : HotCPU) : CpuCmd :=
  .deviceAdd (cpuDevID c) c.typ c.coreID
    (if s390x then none else some (c.socketID, c.threadID))

/-- The `device_del` command for unplugging one CPU (lines 9969-9972): the
device ID is the last path component of the CPU's `qom-path`. -/
def cpuDelCmd (c : HotCPU) : CpuCmd :=
  .deviceDel (lastSlashField c.qomPath)

/-- CPUs with an unset `qom-path` are available for hotplug (lines
9899-9902). -/
def availableCPUs (cpus : List HotCPU) : List HotCPU :=
  cpus.filter fun c => c.qomPath == ""

/-- CPUs whose `qom-path` starts with `/machine/peripheral` are hotplugged
ones (lines 9903-9905). -/
def hotpluggedCPUs (cpus : List HotCPU) : List HotCPU :=
  cpus.filter fun c => c.qomPath != "" && strHasPfx c.qomPath "/machine/peripheral"

/-- Outcome of a `setCPUs` run: the monitor commands issued (with the
1-second sleep recorded in sequence) plus whether `postCPUHotplug` runs, or
the error returned. Monitor command failures abort the run early; the claim
concerns the command sequence of successful runs, so the embedding lets every
issued command succeed. -/
inductive SetCPUsOutcome where
  | ok (cmds : List CpuCmd) (postHotplug : Bool)
  | error (msg : String)
deriving DecidableEq, Repr

/-- Shallow embedding of `(*qemu).setCPUs` (lines 9875-10003) given the
`query-hotpluggable-cpus` response and the requested count. -/
def setCPUs (s390x : Bool) (cpus : List HotCPU) (count : Nat) : SetCPUsOutcome :=
  if count = 0 then
    .ok [] false
  else
    let avail := availableCPUs cpus
    let hot := hotpluggedCPUs cpus
    let totalReservedCPUs := hot.length + 1
    if count = totalReservedCPUs then
      .ok [] false
    else if totalReservedCPUs < count then
      if cpus.length < count then
        .error "Cannot allocate more CPUs than available"
      else if avail.length < count - totalReservedCPUs then
        .error "Unable to allocate more CPUs, not enough hotpluggable CPUs available"
      else
        .ok ((avail.take (count - totalReservedCPUs)).map (cpuAddCmd s390x)) true
    else
      if hot.length < totalReservedCPUs - count then
        .error "Unable to remove CPUs, not enough hotpluggable CPUs available"
      else
        .ok ((hot.take (totalReservedCPUs - count)).map cpuDelCmd ++ [CpuCmd.sleepSecond]) true

/-! ## `deviceDetachBlockDevice` (claim C7, lines 2678-2718) -/

/-- Outcome of one `monitor.RemoveBlockDevice` attempt: success, an HTTP 423
Locked error, or any other error. -/
inductive DetachResp where
  | ok
  | locked
  | otherErr
deriving DecidableEq, Repr

/-- Monitor calls made by `deviceDetachBlockDevice`, in order. -/
inductive DetachCmd where
  | removeFDSet
  | removeDevice
  | removeBlockDev
deriving DecidableEq, Repr

/-- The error built from `waitDuration` at line 2713. -/
def detachFailMsg : String := "Failed to detach block device after 10s"

/-- Shallow embedding of the `blockdev-del` retry loop (lines 2699-2715).
`resp` gives the outcome of the `i`-th `RemoveBlockDevice` attempt, `t` the
seconds elapsed since the loop started (attempts are instantaneous; only the
2-second sleeps advance time), `deadline` the 10-second `waitUntil` bound and
`fuel` the iterations still observed (`none` means the loop is still running
after `fuel` iterations). Note the deadline is consulted only after an
attempt that failed with a non-Locked error, exactly as in the source. -/
def removeBlockDevLoop (resp : Nat → DetachResp) (deadline : Nat) :
    Nat → Nat → Nat → List DetachCmd × Option (Except String Unit)
  | _, _, 0 => ([], none)
  | i, t, fuel + 1 =>
    match resp i with
    | .ok => ([.removeBlockDev], some (.ok ()))
    | .locked =>
      let r := removeBlockDevLoop resp deadline (i + 1) (t + 2) fuel
      (.removeBlockDev :: r.1, r.2)
    | .otherErr =>
      if deadline < t then
        ([.removeBlockDev], some (.error detachFailMsg))
      else
        let r := removeBlockDevLoop resp deadline (i + 1) t fuel
        (.removeBlockDev :: r.1, r.2)

/-- Environment of a `deviceDetachBlockDevice` call: whether the initial
`RemoveFDFromFDSet` and `RemoveDevice` calls succeed, and the outcomes of the
successive `RemoveBlockDevice` attempts. -/
structure DetachEnv where
  removeFDOk : Bool
  removeDeviceOk : Bool
  resp : Nat → DetachResp

/-- Shallow embedding of `(*qemu).deviceDetachBlockDevice` (lines 2678-2718):
the trace of monitor calls and the result (`none` while the retry loop is
still running after `fuel` iterations). -/
def deviceDetachBlockDevice (env : DetachEnv) (fuel : Nat) :
    List DetachCmd × Option (Except String Unit) :=
  if env.removeFDOk = false then
    ([.removeFDSet], some (.error "Failed removing FD set entry"))
  else if env.removeDeviceOk = false then
    ([.removeFDSet, .removeDevice], some (.error "Failed removing device"))
  else
    let r := removeBlockDevLoop env.resp 10 0 0 fuel
    ([.removeFDSet, .removeDevice] ++ r.1, r.2)

/-! ## `migrateSendLive` (claim C2, lines 7405-7818)

The embedding follows the non-shared-storage path (`sameSharedStorage` is
false, which is what claim C2 is about) and records every monitor (QMP)
interaction in order, including those issued by deferred cleanups and by the
reverter on failure. Go defers run LIFO on return: the `reverter.Fail()`
deferred at line 7536 runs the revert closures (added at 7522, 7655, 7674) in
reverse order, after which the cleanups deferred at lines 7512 and 7494
remove the snapshot block device and its FD-set entry. The concurrent
progress-reporting goroutine (lines 7707-7741) issues only `query-migrate`
reads and is not part of the ordered trace. -/

/-- Name of the source root disk device (line 7412). -/
def rootDiskName : String := "incus_root"

/-- Name of the NBD target disk device (line 7413). -/
def nbdTargetDiskName : String := "incus_root_nbd"

/-- Name of the migration snapshot disk device (line 7414). -/
def rootSnapshotDiskName : String := "incus_root_snapshot"

/-- A monitor interaction of `migrateSendLive` (plus `stopInstance` for the
`d.Stop(false)` call on an intra-cluster move). -/
inductive MigCmd where
  | setCapabilities (autoConverge pauseBeforeSwitchover zeroBlocks : Bool)
  | setParameters
  | sendFile (name : String)
  | addBlockDev (name : String)
  | blockDevSnapshot (node overlay : String)
  | blockDevMirror (src dst : String)
  | blockJobCancel (name : String)
  | migrateStart
  | migrateWait (s : String)
  | migrateContinue
  | monStart
  | blockCommit (name : String)
  | removeBlockDev (name : String)
  | removeFDSet (name : String)
  | stopInstance
deriving DecidableEq, Repr

/-- Environment of one `migrateSendLive` run on non-shared storage: the
intra-cluster-move flag and one failure flag per fallible step, in source
order. `failSnapshotFilePrep` groups the non-monitor file steps of lines
7460-7496 (remove old snapshot, `qemu-img create`, open, unlink);
`failStorageNotify` groups lines 7574-7608 (`StorageVolumeProject` and the
shared-disk `MigrateVolume` loop); `failPipe` is the `os.Pipe` call at
line 7687. -/
structure MigrateEnv where
  clusterMove : Bool
  failSetCapabilities : Bool
  failSetParameters : Bool
  failSnapshotFilePrep : Bool
  failSendFile : Bool
  failAddSnapBlockDev : Bool
  failBlockDevSnapshot : Bool
  failMigrateInstance : Bool
  failStorageNotify : Bool
  failListen : Bool
  failAddNBD : Bool
  failBlockDevMirror : Bool
  failPipe : Bool
  failSaveState : Bool
  failMigrateWaitPre : Bool
  failBlockJobCancel : Bool
  failMigrateContinue : Bool
  failMigrateWaitCompleted : Bool
  failStopInstance : Bool
  failResume : Bool
  failBlockCommit : Bool

/-- Monitor commands of the deferred cleanups registered at lines 7494 and
7512, which run on every exit once registered (LIFO: block device first). -/
def migrateSnapDefers : List MigCmd :=
  [.removeBlockDev rootSnapshotDiskName, .removeFDSet rootSnapshotDiskName]

/-- Trace of the revert closure registered at lines 7522-7534 (resume the
guest, then block-commit the snapshot back onto the root disk) followed by
the two deferred cleanups that run after `reverter.Fail()`. -/
def migrateRevertTail : List MigCmd :=
  [.monStart, .blockCommit rootSnapshotDiskName,
   .removeBlockDev rootSnapshotDiskName, .removeFDSet rootSnapshotDiskName]

/-- Trace of a full `reverter.Fail()` once all three closures are registered
(LIFO: cancel the mirror job, remove the NBD target, resume and commit),
followed by the deferred cleanups. -/
def migrateFullRevert : List MigCmd :=
  [.blockJobCancel rootSnapshotDiskName, .removeBlockDev nbdTargetDiskName]
    ++ migrateRevertTail

/-- Whether the run got past `blockdev-snapshot` (line 7517), i.e. guest
writes were redirected to the migration snapshot. -/
def snapshotTaken (env : MigrateEnv) : Bool :=
  !env.failSetCapabilities && !env.failSetParameters && !env.failSnapshotFilePrep
    && !env.failSendFile && !env.failAddSnapBlockDev && !env.failBlockDevSnapshot

/-- Shallow embedding of `migrateSendLive` on non-shared storage (lines
7405-7818): the ordered monitor trace of the run and whether it failed. -/
def migrateSendLive (env : MigrateEnv) : List MigCmd × Bool :=
  let t1 : List MigCmd := [.setCapabilities true true true]
  if env.failSetCapabilities then (t1, true) else
  let t2 := t1 ++ [.setParameters]
  if env.failSetParameters then (t2, true) else
  if env.failSnapshotFilePrep then (t2, true) else
  let t3 := t2 ++ [.sendFile rootSnapshotDiskName]
  if env.failSendFile then (t3, true) else
  let t4 := t3 ++ [.addBlockDev rootSnapshotDiskName]
  if env.failAddSnapBlockDev then (t4 ++ [.removeFDSet rootSnapshotDiskName], true) else
  let t5 := t4 ++ [.blockDevSnapshot rootDiskName rootSnapshotDiskName]
  if env.failBlockDevSnapshot then (t5 ++ migrateSnapDefers, true) else
  if env.failMigrateInstance then (t5 ++ migrateRevertTail, true) else
  if env.failStorageNotify then (t5 ++ migrateRevertTail, true) else
  if env.failListen then (t5 ++ migrateRevertTail, true) else
  let t6 := t5 ++ [.addBlockDev nbdTargetDiskName]
  if env.failAddNBD then (t6 ++ migrateRevertTail, true) else
  let t7 := t6 ++ [.blockDevMirror rootSnapshotDiskName nbdTargetDiskName]
  if env.failBlockDevMirror then
    (t7 ++ [.removeBlockDev nbdTargetDiskName] ++ migrateRevertTail, true) else
  if env.failPipe then (t7 ++ migrateFullRevert, true) else
  let t8 := t7 ++ [.migrateStart]
  if env.failSaveState then (t8 ++ migrateFullRevert, true) else
  let t9 := t8 ++ [.migrateWait "pre-switchover"]
  if env.failMigrateWaitPre then (t9 ++ migrateFullRevert, true) else
  let t10 := t9 ++ [.blockJobCancel rootSnapshotDiskName]
  if env.failBlockJobCancel then (t10 ++ migrateFullRevert, true) else
  let t11 := t10 ++ [.migrateContinue]
  if env.failMigrateContinue then (t11 ++ migrateFullRevert, true) else
  let t12 := t11 ++ [.migrateWait "completed"]
  if env.failMigrateWaitCompleted then (t12 ++ migrateFullRevert, true) else
  if env.clusterMove then
    let t13 := t12 ++ [.stopInstance]
    if env.failStopInstance then (t13 ++ migrateFullRevert, true)
    else (t13 ++ migrateSnapDefers, false)
  else
    let t14 := t12 ++ [.removeBlockDev nbdTargetDiskName, .monStart]
    if env.failResume then (t14 ++ migrateFullRevert, true) else
    let t15 := t14 ++ [.blockCommit rootSnapshotDiskName]
    if env.failBlockCommit then (t15 ++ migrateFullRevert, true)
    else (t15 ++ migrateSnapDefers, false)

/-! ## `start` and its reverter (claim C1, lines 1267-2141)

The embedding tracks the resources `start` acquires and the LIFO reverter
(`revert.New()` at line 1311, whose `Fail()` is deferred at 1312 and runs the
registered closures most-recent-first on every return until `Success()` at
line 2110 empties it). Fallible steps that acquire nothing are grouped into
one failure flag per region, preserving their position relative to every
acquisition and closure registration. -/

/-- A revert closure registered on the `start` reverter, tagged by what it
releases: the config volume unmount (line 1347), a device stop (line 1496), a
device run-config revert hook (line 1508), the config-drive mount path clear
(line 1536), and the QEMU process kill (line 1941). -/
inductive RevertAction where
  | unmountConfig
  | stopDevice (n : Nat)
  | runConfRevert (n : Nat)
  | clearConfigDrive
  | killProcess
deriving DecidableEq, Repr

/-- Resource state of one `start` run. `devicesRunning` lists the (positional)
names of devices started and not yet stopped; `killRegistered` records that
the kill closure was added (PID confirmed); `processKilled` that the
`killQemuProcess` closure actually ran; `stopInvoked` that the post-hook
failure path called `d.Stop(false)` (whose error is discarded);
`committed` that `reverter.Success()` was reached. -/
structure StartState where
  configMounted : Bool
  configDriveDirCreated : Bool
  configDriveMounted : Bool
  devicesRunning : List Nat
  processSpawned : Bool
  processKilled : Bool
  killRegistered : Bool
  stopInvoked : Bool
  committed : Bool
deriving DecidableEq, Repr

/-- The state before `start` acquires anything. -/
def initStartState : StartState :=
  { configMounted := false, configDriveDirCreated := false,
    configDriveMounted := false, devicesRunning := [],
    processSpawned := false, processKilled := false, killRegistered := false,
    stopInvoked := false, committed := false }

/-- Effect of one revert closure on the resource state: `d.unmount()` clears
the config-volume mount, `deviceStop` removes the device from the running
set, a run-config revert hook is device-internal, `configDriveMountPathClear`
unmounts and removes the config-drive path, `killQemuProcess` kills the
spawned process. -/
def applyRevert : RevertAction → StartState → StartState
  | .unmountConfig, st => { st with configMounted := false }
  | .stopDevice n, st =>
      { st with devicesRunning := st.devicesRunning.filter fun m => m != n }
  | .runConfRevert _, st => st
  | .clearConfigDrive, st =>
      { st with configDriveMounted := false, configDriveDirCreated := false }
  | .killProcess, st => { st with processKilled := true }

/-- `reverter.Fail()`: run the closures most-recent-first (the list is kept
LIFO, most recent at the head). -/
def runReverter : List RevertAction → StartState → StartState
  | [], st => st
  | a :: rest, st => runReverter rest (applyRevert a st)

/-- One expanded device as `start` sees it: whether its `deviceStart` fails
and whether its run configuration carries a `Revert` hook. -/
structure DeviceSpec where
  startFails : Bool
  hasRevert : Bool
deriving DecidableEq, Repr

/-- The device start loop (lines 1485-1517), with devices named by position:
on success the device is appended to the running set, its `deviceStop`
closure is registered, then its run-config `Revert` hook if present; on
failure the loop stops. Returns the state, the reverter and the failure
flag. -/
def deviceStartLoop : List DeviceSpec → Nat → StartState → List RevertAction →
    StartState × List RevertAction × Bool
  | [], _, st, rev => (st, rev, false)
  | d :: ds, i, st, rev =>
    if d.startFails then
      (st, rev, true)
    else
      let st' := { st with devicesRunning := st.devicesRunning ++ [i] }
      let rev' :=
        if d.hasRevert then
          RevertAction.runConfRevert i :: RevertAction.stopDevice i :: rev
        else
          RevertAction.stopDevice i :: rev
      deviceStartLoop ds (i + 1) st' rev'

/-- Failure injection for one `start` run, in source order. `failPreMount`
covers lines 1296-1338 (NUMA balance, module load, log rotation, stale PID
file); `failPreDevices` lines 1360-1482 (vsock ID, config share, directory
creation, NVRAM, `VolatileSet`, device load and pre-start checks);
`failPreSpawn` lines 1549-1918 (arch config, startup snapshot, CPU topology,
QEMU config generation and file, scriptlets, ownership changes, process
object, AppArmor load, backup file); `failWait` the `p.Wait` at 1926;
`failPid` the PID confirmation at 1934 (also covering the `pid <= 0` return,
which takes the same path); `failPostPid` lines 1946-2108 (QMP connect,
machine-definition recording, hooks, CPU pinning, monitor hooks, reset,
`SetAction`, state restore, `monitor.Start`, stateful cleanup,
`recordLastState`); `failPostStartHooks` the post-start hooks at 2113-2130,
which run after `reverter.Success()`. -/
structure StartEnv where
  failPreMount : Bool
  failMount : Bool
  failPreDevices : Bool
  devices : List DeviceSpec
  failConfigDriveClear : Bool
  failConfigDriveMkdir : Bool
  failConfigDriveMount : Bool
  failPreSpawn : Bool
  failSpawn : Bool
  failWait : Bool
  failPid : Bool
  failPostPid : Bool
  failPostStartHooks : Bool

/-- Outcome of a `start` run: whether it returned an error, and the resource
state after all deferred handlers ran. -/
structure StartResult where
  failed : Bool
  finalState : StartState
deriving DecidableEq, Repr

/-- Return with an error before `reverter.Success()`: the deferred
`reverter.Fail()` runs the registered closures. -/
def failWithRevert (st : StartState) (rev : List RevertAction) : StartResult :=
  { failed := true, finalState := runReverter rev st }

/-- State after the config volume mount succeeded (line 1341). -/
def startStateMounted : StartState :=
  { initStartState with configMounted := true }

/-- Reverter contents after the unmount closure was registered (line 1347). -/
def startRev1 : List RevertAction := [.unmountConfig]

/-- Shallow embedding of `(*qemu).start` (lines 1267-2141) as resource/revert
tracking with failure injection. Acquisition order and closure registration
follow the source: config volume mount (revert: unmount), device starts
(reverts: stop, then optional run-config revert), config-drive dir creation
(revert: clear) and mount, process spawn, PID confirmation (revert: kill),
then `reverter.Success()` (line 2110) just before the post-start hooks, whose
failures call `d.Stop(false)` (error ignored) instead of the reverter. -/
def qemuStart (env : StartEnv) : StartResult :=
  if env.failPreMount then failWithRevert initStartState [] else
  if env.failMount then failWithRevert initStartState [] else
  if env.failPreDevices then failWithRevert startStateMounted startRev1 else
  let res := deviceStartLoop env.devices 0 startStateMounted startRev1
  let st2 := res.1
  let rev2 := res.2.1
  if res.2.2 then failWithRevert st2 rev2 else
  if env.failConfigDriveClear then failWithRevert st2 rev2 else
  if env.failConfigDriveMkdir then failWithRevert st2 rev2 else
  let st3 := { st2 with configDriveDirCreated := true }
  let rev3 := RevertAction.clearConfigDrive :: rev2
  if env.failConfigDriveMount then failWithRevert st3 rev3 else
  let st4 := { st3 with configDriveMounted := true }
  if env.failPreSpawn then failWithRevert st4 rev3 else
  if env.failSpawn then failWithRevert st4 rev3 else
  let st5 := { st4 with processSpawned := true }
  if env.failWait then failWithRevert st5 rev3 else
  if env.failPid then failWithRevert st5 rev3 else
  let st6 := { st5 with killRegistered := true }
  let rev4 := RevertAction.killProcess :: rev3
  if env.failPostPid then failWithRevert st6 rev4 else
  let st7 := { st6 with committed := true }
  if env.failPostStartHooks then
    { failed := true, finalState := { st7 with stopInvoked := true } }
  else
    { failed := false, finalState := st7 }

/-- A `start` run (no devices) in which every step succeeds except the
post-start hook, which runs after `reverter.Success()`. -/
def startHookFailEnv : StartEnv :=
  { failPreMount := false, failMount := false, failPreDevices := false,
    devices := [], failConfigDriveClear := false, failConfigDriveMkdir := false,
    failConfigDriveMount := false, failPreSpawn := false, failSpawn := false,
    failWait := false, failPid := false, failPostPid := false,
    failPostStartHooks := true }

/-- A `start` run with two started devices (the first with a run-config
revert hook) that fails right after the PID was confirmed, at the QMP
connect step. -/
def startPostPidFailEnv : StartEnv :=
  { failPreMount := false, failMount := false, failPreDevices := false,
    devices := [{ startFails := false, hasRevert := true },
                { startFails := false, hasRevert := false }],
    failConfigDriveClear := false, failConfigDriveMkdir := false,
    failConfigDriveMount := false, failPreSpawn := false, failSpawn := false,
    failWait := false, failPid := false, failPostPid := true,
    failPostStartHooks := false }

end Incus

namespace Incus

/-! ## Theorems for claims C3 and C6 -/

/-- Claim C3: the operation-lock inheritance matrix. The `Stop` lock is created
with inheritable actions exactly Restart, Restore, Migrate; the `start` and
`Update` locks with exactly Restart, Restore; the `Shutdown` lock with exactly
Restart and with the reusable flag set; and no lock-creation call site in the
driver passes an inheritable action outside Restart, Restore, Migrate. -/
theorem opLock_inheritance_matrix :
    stopLockCall.inheritable = [.restart, .restore, .migrate]
    ∧ startLockCall.inheritable = [.restart, .restore]
    ∧ updateLockCall.inheritable = [.restart, .restore]
    ∧ shutdownLockCall.inheritable = [.restart]
    ∧ shutdownLockCall.reusable = true
    ∧ (qemuLockCalls.all fun c =>
        c.inheritable.all fun a =>
          ([Action.restart, .restore, .migrate].contains a)) = true := by
  decide

/-- Claim C6: `pid()` returns a positive PID only when `/proc/<pid>/cmdline`
contains both `qemu-system` and the instance UUID; if either substring is
absent it returns an error; if the PID file or the process is gone it returns
0 with no error. -/
theorem pid_cmdline_contract (env : PidEnv) :
    (env.pidFile = .notExist → qemuPid env = (0, none))
    ∧ (∀ s p, env.pidFile = .content s → goAtoi s = some p →
        ((env.procCmdline p = .notExist ∨ env.procCmdline p = .readErr) →
          qemuPid env = (0, none))
        ∧ (∀ cmd, env.procCmdline p = .content cmd →
            ¬(bytesContains cmd qemuSearchString = true
              ∧ bytesContains cmd env.uuid = true) →
            qemuPid env = (-1, some pidMismatchErr)))
    ∧ (∀ p, 0 < p → qemuPid env = (p, none) →
        ∃ cmd, env.procCmdline p = .content cmd
          ∧ bytesContains cmd qemuSearchString = true
          ∧ bytesContains cmd env.uuid = true) := by
  refine ⟨?_, ?_, ?_⟩
  · intro h
    simp [qemuPid, h]
  · intro s p hs hp
    constructor
    · intro hgone
      rcases hgone with h | h <;> simp [qemuPid, hs, hp, h]
    · intro cmd hcmd hno
      have : ¬(bytesContains cmd qemuSearchString && bytesContains cmd env.uuid) = true := by
        intro hb
        exact hno ⟨(Bool.and_eq_true _ _ |>.mp hb).1, (Bool.and_eq_true _ _ |>.mp hb).2⟩
      simp [qemuPid, hs, hp, hcmd, this]
  · intro p hp hres
    unfold qemuPid at hres
    cases hfile : env.pidFile with
    | notExist => simp [hfile] at hres; omega
    | readErr => simp [hfile] at hres
    | content pidStr =>
      simp only [hfile] at hres
      cases hatoi : goAtoi pidStr with
      | none => simp [hatoi] at hres
      | some q =>
        simp only [hatoi] at hres
        cases hcmd : env.procCmdline q with
        | notExist => simp [hcmd] at hres; omega
        | readErr => simp [hcmd] at hres; omega
        | content cmdLine =>
          simp only [hcmd] at hres
          by_cases hb : (bytesContains cmdLine qemuSearchString
              && bytesContains cmdLine env.uuid) = true
          · simp only [hb, if_true, Prod.mk.injEq] at hres
            obtain ⟨rfl, -⟩ := hres
            exact ⟨cmdLine, hcmd, (Bool.and_eq_true _ _ |>.mp hb).1,
              (Bool.and_eq_true _ _ |>.mp hb).2⟩
          · simp [hb] at hres

/-- Witness for `pid_cmdline_contract` at a concrete environment: a PID file
naming process 1234 whose command line contains both markers. -/
theorem pid_cmdline_contract_witness :
    ∃ cmd,
      ({ pidFile := .content "1234",
         procCmdline := fun _ => .content "/usr/bin/qemu-system-x86_64 -uuid u-1",
         uuid := "u-1" } : PidEnv).procCmdline 1234 = .content cmd
      ∧ bytesContains cmd qemuSearchString = true
      ∧ bytesContains cmd "u-1" = true := by
  exact (pid_cmdline_contract
    { pidFile := .content "1234",
      procCmdline := fun _ => .content "/usr/bin/qemu-system-x86_64 -uuid u-1",
      uuid := "u-1" }).2.2 1234 (by decide) (by decide)

/-- Claim C10: while an operation lock with action Start is held, `statusCode`
returns Stopped without consulting QMP; while one with action Stop is held, it
returns Ready when `volatile.last_state.ready` is true and Running otherwise —
for every monitor state and PID-file state. -/
theorem statusCode_during_operations (env : StatusEnv) :
    (env.opAction = some .start → statusCode env = .stopped)
    ∧ (env.opAction = some .stop →
        statusCode env = if env.lastStateReady then .ready else .running) := by
  constructor
  · intro h
    simp [statusCode, h]
  · intro h
    simp [statusCode, h]

/-- Witness for `statusCode_during_operations`: an instance mid-start with a
live, running QEMU process still reports Stopped, and an instance mid-stop
with `volatile.last_state.ready` unset reports Running. -/
theorem statusCode_during_operations_witness :
    statusCode { opAction := some .start, lastStateReady := false,
                 qmp := .status "running", pidPositive := true } = .stopped
    ∧ statusCode { opAction := some .stop, lastStateReady := false,
                   qmp := .status "running", pidPositive := true } = .running := by
  refine ⟨?_, ?_⟩
  · exact (statusCode_during_operations
      { opAction := some .start, lastStateReady := false,
        qmp := .status "running", pidPositive := true }).1 rfl
  · exact (statusCode_during_operations
      { opAction := some .stop, lastStateReady := false,
        qmp := .status "running", pidPositive := true }).2 rfl

/-- Helper: the vsock allocation loop only ever returns unreserved IDs. -/
theorem nextVsockIDLoop_not_reserved (acquire : Nat → AcqResult) (uuid : String) :
    ∀ fuel i vsockID, nextVsockIDLoop acquire uuid i fuel = .ok vsockID → 2 < vsockID := by
  intro fuel
  induction fuel with
  | zero => intro i vsockID h; simp [nextVsockIDLoop] at h
  | succ n ih =>
    intro i vsockID h
    unfold nextVsockIDLoop at h
    by_cases hres : reservedVsockID (stableRandUint32 uuid i) = true
    · rw [if_pos hres] at h
      exact ih (i + 1) vsockID h
    · rw [if_neg hres] at h
      cases hacq : acquire (stableRandUint32 uuid i) <;> rw [hacq] at h
      · simp only [Except.ok.injEq] at h
        subst h
        simpa [reservedVsockID] using hres
      · exact ih (i + 1) vsockID h
      · simp at h

/-- Claim C5: `nextVsockID` never returns an ID in 0, 1, 2; and when no
previously stored ID is reacquired, the result is a function of the UUID and
the set of in-use IDs alone, so two runs with the same UUID and the same
acquisition oracle acquire the same context ID. -/
theorem nextVsockID_reserved_and_deterministic :
    (∀ (env : VsockEnv) (fuel vsockID : Nat),
      nextVsockID env fuel = .ok vsockID → 2 < vsockID)
    ∧ (∀ (env₁ env₂ : VsockEnv) (fuel : Nat),
        env₁.uuid = env₂.uuid → env₁.acquire = env₂.acquire →
        env₁.uuidValid = env₂.uuidValid →
        acquireExistingVsockID env₁ = none → acquireExistingVsockID env₂ = none →
        nextVsockID env₁ fuel = nextVsockID env₂ fuel) := by
  constructor
  · intro env fuel vsockID h
    unfold nextVsockID at h
    cases hex : acquireExistingVsockID env with
    | some id =>
      rw [hex] at h
      simp only [Except.ok.injEq] at h
      subst h
      unfold acquireExistingVsockID at hex
      cases hget : getVsockID env.localVsockID with
      | error e => rw [hget] at hex; simp at hex
      | ok stored =>
        simp only [hget] at hex
        have hstored : 2 < stored := by
          unfold getVsockID at hget
          cases hl : env.localVsockID with
          | none => simp [hl] at hget
          | some s =>
            simp only [hl] at hget
            cases hp : goParseUint32 s with
            | none => simp [hp] at hget
            | some v =>
              simp only [hp] at hget
              by_cases hr : reservedVsockID v = true
              · simp [hr] at hget
              · simp [hr] at hget
                subst hget
                simpa [reservedVsockID] using hr
        cases hacq : env.acquire stored <;> simp [hacq] at hex
        subst hex
        exact hstored
    | none =>
      rw [hex] at h
      by_cases hv : env.uuidValid = true
      · rw [if_pos hv] at h
        exact nextVsockIDLoop_not_reserved env.acquire env.uuid fuel 0 vsockID h
      · rw [if_neg hv] at h
        simp at h
  · intro env₁ env₂ fuel huuid hacq hvalid h₁ h₂
    unfold nextVsockID
    rw [h₁, h₂, huuid, hacq, hvalid]

/-- Witness for `nextVsockID_reserved_and_deterministic`: a stored ID 5 that
is reacquired is indeed above 2, and an environment with no stored ID behaves
identically to itself on the fresh-allocation path. -/
theorem nextVsockID_reserved_witness :
    2 < 5
    ∧ nextVsockID { localVsockID := none, uuid := "aa", uuidValid := true,
                    acquire := fun _ => .acquired } 3
      = nextVsockID { localVsockID := none, uuid := "aa", uuidValid := true,
                      acquire := fun _ => .acquired } 3 := by
  constructor
  · exact nextVsockID_reserved_and_deterministic.1
      { localVsockID := some "5", uuid := "aa", uuidValid := true,
        acquire := fun _ => .acquired } 3 5 rfl
  · exact nextVsockID_reserved_and_deterministic.2
      { localVsockID := none, uuid := "aa", uuidValid := true,
        acquire := fun _ => .acquired }
      { localVsockID := none, uuid := "aa", uuidValid := true,
        acquire := fun _ => .acquired } 3 rfl rfl rfl rfl rfl

/-- Counterexample to claim C4: a non-stateful start of an instance whose
`volatile.vm.definition` records "pc-q35-8.2" passes the empty string — not
the recorded definition — to `generateQemuConfig`, and afterwards overwrites
the volatile key with whatever machine type QEMU reports. -/
theorem vm_definition_not_reused_on_stateless_start :
    startMachineDefinition
      { statefulParam := false, dStateful := false,
        storedDefinition := "pc-q35-8.2", qemuReported := "pc-q35-9.0" } = ""
    ∧ ("pc-q35-8.2" : String) ≠ ""
    ∧ startRecordedDefinition
      { statefulParam := false, dStateful := false,
        storedDefinition := "pc-q35-8.2", qemuReported := "pc-q35-9.0" } = "pc-q35-9.0" := by
  refine ⟨rfl, by decide, rfl⟩

/-- Claim C4 as amended: only a stateful start (restore) passes the recorded
`volatile.vm.definition` to `generateQemuConfig`; a non-stateful start passes
an empty machine definition (deriving a new one) and afterwards records the
machine type reported by QEMU — in particular the first start records the
reported type; a stateful restore with saved state leaves the recorded
definition unchanged. -/
theorem vm_definition_recording (env : MachineDefEnv) :
    (env.statefulParam = true → startMachineDefinition env = env.storedDefinition)
    ∧ (env.statefulParam = false →
        startMachineDefinition env = "" ∧ startRecordedDefinition env = env.qemuReported)
    ∧ (env.statefulParam = true → env.dStateful = true →
        startRecordedDefinition env = env.storedDefinition) := by
  refine ⟨?_, ?_, ?_⟩
  · intro h
    simp [startMachineDefinition, h]
  · intro h
    simp [startMachineDefinition, startRecordedDefinition, startEffectiveStateful, h]
  · intro h₁ h₂
    simp [startRecordedDefinition, startEffectiveStateful, h₁, h₂]

/-- Witness for `vm_definition_recording`: a stateful restore reuses the
stored definition, and a plain start records the reported one. -/
theorem vm_definition_recording_witness :
    startMachineDefinition
      { statefulParam := true, dStateful := true,
        storedDefinition := "pc-q35-8.2", qemuReported := "pc-q35-9.0" } = "pc-q35-8.2"
    ∧ startRecordedDefinition
      { statefulParam := false, dStateful := false,
        storedDefinition := "", qemuReported := "pc-q35-9.0" } = "pc-q35-9.0" := by
  constructor
  · exact (vm_definition_recording
      { statefulParam := true, dStateful := true,
        storedDefinition := "pc-q35-8.2", qemuReported := "pc-q35-9.0" }).1 rfl
  · exact ((vm_definition_recording
      { statefulParam := false, dStateful := false,
        storedDefinition := "", qemuReported := "pc-q35-9.0" }).2.1 rfl).2

/-- Helper: `findSome?` returns a hit whenever some list member produces one. -/
theorem findSome?_ne_none_of_mem {α β : Type} (f : α → Option β) {l : List α} {a : α}
    (ha : a ∈ l) (hf : f a ≠ none) : l.findSome? f ≠ none := by
  induction l with
  | nil => cases ha
  | cons b bs ih =>
    rw [List.findSome?_cons]
    rcases List.mem_cons.mp ha with rfl | hmem
    · cases hfa : f a with
      | none => exact absurd hfa hf
      | some v => simp
    · cases hfb : f b with
      | none => exact ih hmem
      | some v => simp

/-- Helper: `findSome?` misses exactly when every member produces `none`. -/
theorem findSome?_eq_none_of_all {α β : Type} (f : α → Option β) {l : List α}
    (h : ∀ a ∈ l, f a = none) : l.findSome? f = none := by
  induction l with
  | nil => rfl
  | cons b bs ih =>
    rw [List.findSome?_cons, h b (List.mem_cons_self b bs)]
    exact ih fun a ha => h a (List.mem_cons_of_mem b ha)

/-- Counterexample to claim C9, refuting both of its arms at concrete
inputs. First, an Update that changes the existing device `d`'s key
`initial.source` from "x" to "" (a modification of an `initial.*` key)
passes the guard without an error (lines 6154-6158 explicitly allow the
empty string). Second, an Update whose diff adds only a brand-new device
carrying the `initial.*` key `initial.source` — so no *updated* key carries
the prefix and the gate at line 6137 is false — passes the guard without an
error, because the added devices are never examined: the guard does not
unconditionally reject added devices carrying `initial.*` keys. -/
theorem initial_config_clear_accepted :
    initialConfigCheck
      { allUpdatedKeys := ["initial.source"],
        addDevices := [("d", [("initial.source", "")])],
        removeDevices := [("d", [("initial.source", "x")])] } = none
    ∧ ("" : String) ≠ "x"
    ∧ initialConfigCheck
      { allUpdatedKeys := [],
        addDevices := [("extra", [("initial.source", "x")])],
        removeDevices := [] } = none
    ∧ strHasPfx "initial.source" "initial." = true := by
  refine ⟨rfl, by decide, rfl, by decide⟩

/-- Claim C9 as amended: `Update`'s `initial.*` guard examines the added
devices only when the device diff reports an updated key prefixed
`initial.`; when it does, it returns an error (so `Update` aborts before
touching the devices) for any added device entry whose `initial.*` key
changes to a different non-empty value, is absent from the old device, or
belongs to a brand-new device; setting an existing `initial.*` key to the
empty string (removing the initial configuration) is accepted, and when no
updated key carries the prefix the added devices are not examined at all,
so a brand-new device carrying an `initial.*` key is then accepted. -/
theorem initial_config_guard (diff : UpdateDiff) :
    (∀ devName newDev k newVal oldDev oldVal,
      stringPfxInSlice "initial." diff.allUpdatedKeys = true →
      (devName, newDev) ∈ diff.addDevices →
      (k, newVal) ∈ newDev →
      strHasPfx k "initial." = true →
      devLookup diff.removeDevices devName = some oldDev →
      assocLookup oldDev k = some oldVal →
      newVal ≠ "" → newVal ≠ oldVal →
      initialConfigCheck diff ≠ none)
    ∧ (∀ devName newDev k newVal oldDev,
      stringPfxInSlice "initial." diff.allUpdatedKeys = true →
      (devName, newDev) ∈ diff.addDevices →
      (k, newVal) ∈ newDev →
      strHasPfx k "initial." = true →
      devLookup diff.removeDevices devName = some oldDev →
      assocLookup oldDev k = none →
      initialConfigCheck diff ≠ none)
    ∧ (∀ devName newDev k newVal,
      stringPfxInSlice "initial." diff.allUpdatedKeys = true →
      (devName, newDev) ∈ diff.addDevices →
      (k, newVal) ∈ newDev →
      strHasPfx k "initial." = true →
      devLookup diff.removeDevices devName = none →
      initialConfigCheck diff ≠ none)
    ∧ (stringPfxInSlice "initial." diff.allUpdatedKeys = false →
      initialConfigCheck diff = none)
    ∧ ((∀ devName newDev, (devName, newDev) ∈ diff.addDevices →
        ∀ k newVal, (k, newVal) ∈ newDev → strHasPfx k "initial." = true →
        ∃ oldDev oldVal,
          devLookup diff.removeDevices devName = some oldDev
          ∧ assocLookup oldDev k = some oldVal
          ∧ (newVal = "" ∨ newVal = oldVal)) →
      initialConfigCheck diff = none) := by
  refine ⟨?_, ?_, ?_, ?_, ?_⟩
  · intro devName newDev k newVal oldDev oldVal hgate hmemDev hmemKey hpfx hold holdVal hne hneq
    unfold initialConfigCheck
    rw [if_pos hgate]
    apply findSome?_ne_none_of_mem _ hmemDev
    apply findSome?_ne_none_of_mem _ hmemKey
    simp only [hpfx, Bool.true_eq_false, if_false, hold, holdVal]
    rw [if_pos ⟨hne, hneq⟩]
    simp
  · intro devName newDev k newVal oldDev hgate hmemDev hmemKey hpfx hold holdNone
    unfold initialConfigCheck
    rw [if_pos hgate]
    apply findSome?_ne_none_of_mem _ hmemDev
    apply findSome?_ne_none_of_mem _ hmemKey
    simp only [hpfx, Bool.true_eq_false, if_false, hold, holdNone]
    simp
  · intro devName newDev k newVal hgate hmemDev hmemKey hpfx hold
    unfold initialConfigCheck
    rw [if_pos hgate]
    apply findSome?_ne_none_of_mem _ hmemDev
    apply findSome?_ne_none_of_mem _ hmemKey
    simp only [hpfx, Bool.true_eq_false, if_false, hold]
    simp
  · intro hgate
    simp [initialConfigCheck, hgate]
  · intro h
    unfold initialConfigCheck
    by_cases hgate : stringPfxInSlice "initial." diff.allUpdatedKeys = true
    · rw [if_pos hgate]
      apply findSome?_eq_none_of_all
      intro nd hnd
      apply findSome?_eq_none_of_all
      intro kv hkv
      by_cases hpfx : strHasPfx kv.1 "initial." = true
      · obtain ⟨oldDev, oldVal, hold, holdVal, hok⟩ :=
          h nd.1 nd.2 hnd kv.1 kv.2 hkv hpfx
        simp only [hpfx, Bool.true_eq_false, if_false, hold, holdVal]
        rcases hok with hok | hok <;> simp [hok]
      · simp only [Bool.not_eq_true] at hpfx
        simp [hpfx]
    · rw [if_neg hgate]

/-- Witness for `initial_config_guard`: changing `initial.source` from "x"
to the non-empty "y" is rejected; adding `initial.source` to an existing
device that lacked it is rejected; a brand-new device carrying
`initial.source` is rejected when the gate is open; when no updated key has
the prefix the guard passes; and a diff whose only `initial.*` change is a
clearing passes. -/
theorem initial_config_guard_witness :
    initialConfigCheck
      { allUpdatedKeys := ["initial.source"],
        addDevices := [("d", [("initial.source", "y")])],
        removeDevices := [("d", [("initial.source", "x")])] } ≠ none
    ∧ initialConfigCheck
      { allUpdatedKeys := ["initial.source"],
        addDevices := [("d", [("initial.source", "y")])],
        removeDevices := [("d", [("gid", "1000")])] } ≠ none
    ∧ initialConfigCheck
      { allUpdatedKeys := ["initial.source"],
        addDevices := [("n", [("initial.source", "y")])],
        removeDevices := [] } ≠ none
    ∧ initialConfigCheck
      { allUpdatedKeys := ["gid"],
        addDevices := [("n", [("initial.source", "y")])],
        removeDevices := [] } = none
    ∧ initialConfigCheck
      { allUpdatedKeys := ["initial.source"],
        addDevices := [("e", [("initial.source", "")])],
        removeDevices := [("e", [("initial.source", "x")])] } = none := by
  refine ⟨?_, ?_, ?_, ?_, ?_⟩
  · exact (initial_config_guard
      { allUpdatedKeys := ["initial.source"],
        addDevices := [("d", [("initial.source", "y")])],
        removeDevices := [("d", [("initial.source", "x")])] }).1
      "d" [("initial.source", "y")] "initial.source" "y" [("initial.source", "x")] "x"
      (by decide) (by decide) (by decide) (by decide) rfl rfl (by decide) (by decide)
  · exact (initial_config_guard
      { allUpdatedKeys := ["initial.source"],
        addDevices := [("d", [("initial.source", "y")])],
        removeDevices := [("d", [("gid", "1000")])] }).2.1
      "d" [("initial.source", "y")] "initial.source" "y" [("gid", "1000")]
      (by decide) (by decide) (by decide) (by decide) rfl rfl
  · exact (initial_config_guard
      { allUpdatedKeys := ["initial.source"],
        addDevices := [("n", [("initial.source", "y")])],
        removeDevices := [] }).2.2.1
      "n" [("initial.source", "y")] "initial.source" "y"
      (by decide) (by decide) (by decide) (by decide) rfl
  · exact (initial_config_guard
      { allUpdatedKeys := ["gid"],
        addDevices := [("n", [("initial.source", "y")])],
        removeDevices := [] }).2.2.2.1 (by decide)
  · exact (initial_config_guard
      { allUpdatedKeys := ["initial.source"],
        addDevices := [("e", [("initial.source", "")])],
        removeDevices := [("e", [("initial.source", "x")])] }).2.2.2.2
      (by
        intro devName newDev hmem k newVal hkv hpfx
        simp only [List.mem_singleton, Prod.mk.injEq] at hmem
        obtain ⟨rfl, rfl⟩ := hmem
        simp only [List.mem_singleton, Prod.mk.injEq] at hkv
        obtain ⟨rfl, rfl⟩ := hkv
        exact ⟨[("initial.source", "x")], "x", rfl, rfl, Or.inl rfl⟩)

/-- Counterexample to claim C8: shrinking from 3 reserved CPUs (2 hotplugged)
to 1 issues `device_del` for the hotplugged CPUs in forward list order
(`cpu111` before `cpu222`), not reverse order. -/
theorem setCPUs_decrease_forward_order :
    setCPUs false
      [{ qomPath := "/machine/peripheral/cpu111", socketID := 1, coreID := 1,
         threadID := 1, typ := "host-x86_64-cpu" },
       { qomPath := "/machine/peripheral/cpu222", socketID := 2, coreID := 2,
         threadID := 2, typ := "host-x86_64-cpu" }] 1
      = .ok [.deviceDel "cpu111", .deviceDel "cpu222", .sleepSecond] true
    ∧ [CpuCmd.deviceDel "cpu111", .deviceDel "cpu222", .sleepSecond]
      ≠ [CpuCmd.deviceDel "cpu222", .deviceDel "cpu111", .sleepSecond] := by
  refine ⟨rfl, by decide⟩

/-- Claim C8 as amended: `setCPUs(N)` with N equal to the reserved CPU count
(hotplugged plus the fixed one) issues no command and skips post-hotplug
tasks; on increase it issues `device_add` for exactly N minus current of the
first available hotpluggable CPUs; on decrease it issues `device_del` for the
first current-minus-N hotplugged CPUs in the order `query-hotpluggable-cpus`
returned them (not reverse) and then sleeps 1 second before the post-hotplug
tasks. -/
theorem setCPUs_hotplug (s390x : Bool) (cpus : List HotCPU) (count : Nat) :
    (count = (hotpluggedCPUs cpus).length + 1 → setCPUs s390x cpus count = .ok [] false)
    ∧ (∀ total, total = (hotpluggedCPUs cpus).length + 1 → total < count →
        count ≤ cpus.length → count - total ≤ (availableCPUs cpus).length →
        setCPUs s390x cpus count
          = .ok (((availableCPUs cpus).take (count - total)).map (cpuAddCmd s390x)) true)
    ∧ (∀ total, total = (hotpluggedCPUs cpus).length + 1 → 0 < count → count < total →
        setCPUs s390x cpus count
          = .ok (((hotpluggedCPUs cpus).take (total - count)).map cpuDelCmd
              ++ [CpuCmd.sleepSecond]) true) := by
  refine ⟨?_, ?_, ?_⟩
  · intro h
    unfold setCPUs
    rw [if_neg (by omega), if_pos h]
  · intro total htotal hlt hle havail
    unfold setCPUs
    rw [if_neg (by omega), if_neg (by omega), if_pos (by omega),
      if_neg (by omega), if_neg (by omega), htotal]
  · intro total htotal hpos hlt
    unfold setCPUs
    rw [if_neg (by omega), if_neg (by omega), if_neg (by omega),
      if_neg (by omega), htotal]

/-- Witness for `setCPUs_hotplug`: a matching count is a no-op, growing from
1 to 2 adds the first available CPU, and shrinking from 3 to 2 removes the
first hotplugged CPU then sleeps. -/
theorem setCPUs_hotplug_witness :
    setCPUs false
      [{ qomPath := "/machine/peripheral/cpu000", socketID := 0, coreID := 0,
         threadID := 0, typ := "t" }] 2 = .ok [] false
    ∧ setCPUs false
      [{ qomPath := "", socketID := 0, coreID := 1, threadID := 0, typ := "t" },
       { qomPath := "", socketID := 0, coreID := 2, threadID := 0, typ := "t" }] 2
      = .ok [.deviceAdd "cpu010" "t" 1 (some (0, 0))] true
    ∧ setCPUs false
      [{ qomPath := "/machine/peripheral/cpu111", socketID := 1, coreID := 1,
         threadID := 1, typ := "t" },
       { qomPath := "/machine/peripheral/cpu222", socketID := 2, coreID := 2,
         threadID := 2, typ := "t" }] 2
      = .ok [.deviceDel "cpu111", .sleepSecond] true := by
  refine ⟨?_, ?_, ?_⟩
  · exact (setCPUs_hotplug false
      [{ qomPath := "/machine/peripheral/cpu000", socketID := 0, coreID := 0,
         threadID := 0, typ := "t" }] 2).1 (by decide)
  · have h := ((setCPUs_hotplug false
      [{ qomPath := "", socketID := 0, coreID := 1, threadID := 0, typ := "t" },
       { qomPath := "", socketID := 0, coreID := 2, threadID := 0, typ := "t" }] 2).2.1)
      1 (by decide) (by decide) (by decide) (by decide)
    rw [h]
    rfl
  · have h := ((setCPUs_hotplug false
      [{ qomPath := "/machine/peripheral/cpu111", socketID := 1, coreID := 1,
         threadID := 1, typ := "t" },
       { qomPath := "/machine/peripheral/cpu222", socketID := 2, coreID := 2,
         threadID := 2, typ := "t" }] 2).2.2)
      3 (by decide) (by decide) (by decide)
    rw [h]
    rfl

/-- Counterexample to claim C7: with `RemoveBlockDevice` persistently failing
with HTTP 423 Locked, the retry loop is still running after 50 attempts —
100 seconds of sleeps, far past the 10-second wait bound — having neither
succeeded nor returned the detach error, because the deadline check is
bypassed whenever the error is Locked. -/
theorem detach_locked_retries_past_deadline :
    (removeBlockDevLoop (fun _ => DetachResp.locked) 10 0 0 50).2 = none
    ∧ 10 < 2 * 50 := by
  refine ⟨rfl, by decide⟩

/-- Claim C7 as amended: `deviceDetachBlockDevice` issues `RemoveFDFromFDSet`
and `device_del` before any `blockdev-del` attempt; a successful attempt ends
the loop; a Locked attempt sleeps 2 seconds and retries without consulting
the deadline — so persistently Locked responses retry indefinitely, for any
number of observed iterations; and an attempt failing with a non-Locked error
after the 10-second bound returns the detach failure error. -/
theorem deviceDetachBlockDevice_retry (env : DetachEnv) (fuel i t : Nat) :
    (env.removeFDOk = true → env.removeDeviceOk = true →
      (deviceDetachBlockDevice env fuel).1
        = [.removeFDSet, .removeDevice] ++ (removeBlockDevLoop env.resp 10 0 0 fuel).1)
    ∧ (env.resp i = .ok →
        (removeBlockDevLoop env.resp 10 i t (fuel + 1)).2 = some (.ok ()))
    ∧ (env.resp i = .locked →
        removeBlockDevLoop env.resp 10 i t (fuel + 1)
          = (.removeBlockDev :: (removeBlockDevLoop env.resp 10 (i + 1) (t + 2) fuel).1,
             (removeBlockDevLoop env.resp 10 (i + 1) (t + 2) fuel).2))
    ∧ (env.resp i = .otherErr → 10 < t →
        (removeBlockDevLoop env.resp 10 i t (fuel + 1)).2 = some (.error detachFailMsg))
    ∧ (∀ n u, (removeBlockDevLoop (fun _ => DetachResp.locked) 10 n u fuel).2 = none) := by
  refine ⟨?_, ?_, ?_, ?_, ?_⟩
  · intro h₁ h₂
    unfold deviceDetachBlockDevice
    rw [h₁, h₂]
    simp
  · intro h
    unfold removeBlockDevLoop
    rw [h]
  · intro h
    conv_lhs => unfold removeBlockDevLoop
    rw [h]
  · intro h ht
    unfold removeBlockDevLoop
    rw [h, if_pos ht]
  · induction fuel with
    | zero => intro n u; rfl
    | succ m ih =>
      intro n u
      unfold removeBlockDevLoop
      exact ih (n + 1) (u + 2)

/-- Witness for `deviceDetachBlockDevice_retry`: a first-attempt success
yields the three-command trace, and a non-Locked failure past the deadline
yields the detach error. -/
theorem deviceDetachBlockDevice_retry_witness :
    (deviceDetachBlockDevice
      { removeFDOk := true, removeDeviceOk := true, resp := fun _ => .ok } 3).1
      = [.removeFDSet, .removeDevice, .removeBlockDev]
    ∧ (removeBlockDevLoop (fun _ => DetachResp.otherErr) 10 0 11 3).2
      = some (.error detachFailMsg) := by
  constructor
  · rw [(deviceDetachBlockDevice_retry
      { removeFDOk := true, removeDeviceOk := true, resp := fun _ => .ok } 3 0 0).1 rfl rfl]
    rfl
  · exact (deviceDetachBlockDevice_retry
      { removeFDOk := true, removeDeviceOk := true,
        resp := fun _ => DetachResp.otherErr } 2 0 11).2.2.2.1 rfl (by decide)

set_option maxHeartbeats 2000000 in
/-- Claim C2: on non-shared storage the first monitor interaction of
`migrateSendLive` sets the migration capabilities auto-converge,
pause-before-switchover and zero-blocks — hence before the migration snapshot
is taken — and every failing run that got past `blockdev-snapshot` ends by
resuming the guest (`monitor.Start`) immediately followed by block-committing
the snapshot back onto the root disk (and then the deferred removal of the
snapshot block device and its FD-set entry), so no guest writes are lost. -/
theorem migrateSendLive_snapshot_safety (env : MigrateEnv) :
    (migrateSendLive env).1.head? = some (.setCapabilities true true true)
    ∧ (snapshotTaken env = true → (migrateSendLive env).2 = true →
        List.IsSuffix
          [MigCmd.monStart, .blockCommit rootSnapshotDiskName,
           .removeBlockDev rootSnapshotDiskName, .removeFDSet rootSnapshotDiskName]
          (migrateSendLive env).1) := by
  constructor
  · simp only [migrateSendLive, apply_ite Prod.fst, apply_ite List.head?,
      List.singleton_append, List.cons_append, List.head?_cons, ite_self]
  · intro hsnap hfail
    simp only [snapshotTaken, Bool.and_eq_true, Bool.not_eq_true'] at hsnap
    obtain ⟨⟨⟨⟨⟨h1, h2⟩, h3⟩, h4⟩, h5⟩, h6⟩ := hsnap
    simp only [migrateSendLive, h1, h2, h3, h4, h5, h6, Bool.false_eq_true,
      if_false] at hfail ⊢
    have hsuffix : ∀ l : List MigCmd,
        List.IsSuffix
          [MigCmd.monStart, .blockCommit rootSnapshotDiskName,
           .removeBlockDev rootSnapshotDiskName, .removeFDSet rootSnapshotDiskName]
          (l ++ migrateRevertTail) := by
      intro l
      exact ⟨l, rfl⟩
    have hsuffix' : ∀ l : List MigCmd,
        List.IsSuffix
          [MigCmd.monStart, .blockCommit rootSnapshotDiskName,
           .removeBlockDev rootSnapshotDiskName, .removeFDSet rootSnapshotDiskName]
          (l ++ migrateFullRevert) := by
      intro l
      refine ⟨l ++ [.blockJobCancel rootSnapshotDiskName, .removeBlockDev nbdTargetDiskName], ?_⟩
      simp [migrateFullRevert, migrateRevertTail]
    by_cases c7 : env.failMigrateInstance = true
    · rw [if_pos c7]
      exact hsuffix _
    rw [if_neg c7] at hfail ⊢
    by_cases c8 : env.failStorageNotify = true
    · rw [if_pos c8]
      exact hsuffix _
    rw [if_neg c8] at hfail ⊢
    by_cases c9 : env.failListen = true
    · rw [if_pos c9]
      exact hsuffix _
    rw [if_neg c9] at hfail ⊢
    by_cases c10 : env.failAddNBD = true
    · rw [if_pos c10]
      exact hsuffix _
    rw [if_neg c10] at hfail ⊢
    by_cases c11 : env.failBlockDevMirror = true
    · rw [if_pos c11]
      exact hsuffix _
    rw [if_neg c11] at hfail ⊢
    by_cases c12 : env.failPipe = true
    · rw [if_pos c12]
      exact hsuffix' _
    rw [if_neg c12] at hfail ⊢
    by_cases c13 : env.failSaveState = true
    · rw [if_pos c13]
      exact hsuffix' _
    rw [if_neg c13] at hfail ⊢
    by_cases c14 : env.failMigrateWaitPre = true
    · rw [if_pos c14]
      exact hsuffix' _
    rw [if_neg c14] at hfail ⊢
    by_cases c15 : env.failBlockJobCancel = true
    · rw [if_pos c15]
      exact hsuffix' _
    rw [if_neg c15] at hfail ⊢
    by_cases c16 : env.failMigrateContinue = true
    · rw [if_pos c16]
      exact hsuffix' _
    rw [if_neg c16] at hfail ⊢
    by_cases c17 : env.failMigrateWaitCompleted = true
    · rw [if_pos c17]
      exact hsuffix' _
    rw [if_neg c17] at hfail ⊢
    by_cases ccm : env.clusterMove = true
    · rw [if_pos ccm] at hfail ⊢
      by_cases c18 : env.failStopInstance = true
      · rw [if_pos c18]
        exact hsuffix' _
      rw [if_neg c18] at hfail
      simp at hfail
    · rw [if_neg ccm] at hfail ⊢
      by_cases c19 : env.failResume = true
      · rw [if_pos c19]
        exact hsuffix' _
      rw [if_neg c19] at hfail ⊢
      by_cases c20 : env.failBlockCommit = true
      · rw [if_pos c20]
        exact hsuffix' _
      rw [if_neg c20] at hfail
      simp at hfail

/-- Witness for `migrateSendLive_snapshot_safety`: a run where the storage
transfer (`pool.MigrateInstance`) fails after the snapshot was taken ends
with resume, block-commit and the deferred snapshot cleanups. -/
theorem migrateSendLive_snapshot_safety_witness :
    List.IsSuffix
      [MigCmd.monStart, .blockCommit rootSnapshotDiskName,
       .removeBlockDev rootSnapshotDiskName, .removeFDSet rootSnapshotDiskName]
      (migrateSendLive
        { clusterMove := false, failSetCapabilities := false,
          failSetParameters := false, failSnapshotFilePrep := false,
          failSendFile := false, failAddSnapBlockDev := false,
          failBlockDevSnapshot := false, failMigrateInstance := true,
          failStorageNotify := false, failListen := false, failAddNBD := false,
          failBlockDevMirror := false, failPipe := false, failSaveState := false,
          failMigrateWaitPre := false, failBlockJobCancel := false,
          failMigrateContinue := false, failMigrateWaitCompleted := false,
          failStopInstance := false, failResume := false,
          failBlockCommit := false }).1 := by
  exact (migrateSendLive_snapshot_safety
    { clusterMove := false, failSetCapabilities := false,
      failSetParameters := false, failSnapshotFilePrep := false,
      failSendFile := false, failAddSnapBlockDev := false,
      failBlockDevSnapshot := false, failMigrateInstance := true,
      failStorageNotify := false, failListen := false, failAddNBD := false,
      failBlockDevMirror := false, failPipe := false, failSaveState := false,
      failMigrateWaitPre := false, failBlockJobCancel := false,
      failMigrateContinue := false, failMigrateWaitCompleted := false,
      failStopInstance := false, failResume := false,
      failBlockCommit := false }).2 rfl rfl

/-- Helper: no revert closure re-mounts the config volume, so once
`unmountConfig` is in the reverter the final state is unmounted. -/
theorem runReverter_unmount {l : List RevertAction} (st : StartState)
    (h : RevertAction.unmountConfig ∈ l) :
    (runReverter l st).configMounted = false := by
  induction l generalizing st with
  | nil => cases h
  | cons a rest ih =>
    rcases List.mem_cons.mp h with rfl | hmem
    · cases hrest : rest
      case nil => simp [runReverter, applyRevert]
      case cons b bs =>
        rw [← hrest]
        by_cases hm : RevertAction.unmountConfig ∈ rest
        · exact ih _ hm
        · have : ∀ (st' : StartState) (l' : List RevertAction),
              RevertAction.unmountConfig ∉ l' →
              (runReverter l' st').configMounted = st'.configMounted := by
            intro st' l' hnot
            induction l' generalizing st' with
            | nil => rfl
            | cons c cs ihc =>
              have hc : c ≠ RevertAction.unmountConfig := fun hc => hnot (hc ▸ List.mem_cons_self c cs)
              have hcs : RevertAction.unmountConfig ∉ cs := fun hm => hnot (List.mem_cons_of_mem c hm)
              rw [runReverter, ihc _ hcs]
              cases c <;> simp [applyRevert] at hc ⊢
          rw [runReverter, this _ rest hm]
          simp [applyRevert]
    · exact ih _ hmem

/-- Helper: revert closures never set the config-drive mount flag. -/
theorem runReverter_configDrive_false {l : List RevertAction} (st : StartState)
    (h : st.configDriveMounted = false) :
    (runReverter l st).configDriveMounted = false := by
  induction l generalizing st with
  | nil => exact h
  | cons a rest ih =>
    rw [runReverter]
    apply ih
    cases a <;> simp [applyRevert, h]

/-- Helper: once `clearConfigDrive` is in the reverter, the config-drive
mount flag ends false. -/
theorem runReverter_clearConfigDrive {l : List RevertAction} (st : StartState)
    (h : RevertAction.clearConfigDrive ∈ l) :
    (runReverter l st).configDriveMounted = false := by
  induction l generalizing st with
  | nil => cases h
  | cons a rest ih =>
    rcases List.mem_cons.mp h with rfl | hmem
    · rw [runReverter]
      apply runReverter_configDrive_false
      simp [applyRevert]
    · exact ih _ hmem

/-- Helper: revert closures never unset `processKilled`. -/
theorem runReverter_killed_mono {l : List RevertAction} (st : StartState)
    (h : st.processKilled = true) :
    (runReverter l st).processKilled = true := by
  induction l generalizing st with
  | nil => exact h
  | cons a rest ih =>
    rw [runReverter]
    apply ih
    cases a <;> simp [applyRevert, h]

/-- Helper: once `killProcess` is in the reverter, the process ends killed. -/
theorem runReverter_killProcess {l : List RevertAction} (st : StartState)
    (h : RevertAction.killProcess ∈ l) :
    (runReverter l st).processKilled = true := by
  induction l generalizing st with
  | nil => cases h
  | cons a rest ih =>
    rcases List.mem_cons.mp h with rfl | hmem
    · rw [runReverter]
      apply runReverter_killed_mono
      simp [applyRevert]
    · exact ih _ hmem

/-- Helper: `killRegistered` is untouched by revert closures. -/
theorem runReverter_killRegistered (l : List RevertAction) (st : StartState) :
    (runReverter l st).killRegistered = st.killRegistered := by
  induction l generalizing st with
  | nil => rfl
  | cons a rest ih =>
    rw [runReverter, ih]
    cases a <;> rfl

/-- Helper: when every running device has its stop closure in the reverter,
running the reverter stops them all. -/
theorem runReverter_devices_nil {l : List RevertAction} (st : StartState)
    (h : ∀ n ∈ st.devicesRunning, RevertAction.stopDevice n ∈ l) :
    (runReverter l st).devicesRunning = [] := by
  induction l generalizing st with
  | nil =>
    cases hdev : st.devicesRunning with
    | nil => rw [runReverter, hdev]
    | cons n ns => exact absurd (h n (by rw [hdev]; exact List.mem_cons_self n ns)) (by simp)
  | cons a rest ih =>
    rw [runReverter]
    apply ih
    intro n hn
    cases a with
    | stopDevice m =>
      have hn' : n ∈ st.devicesRunning ∧ (n != m) = true := by
        simpa [applyRevert, List.mem_filter] using hn
      rcases List.mem_cons.mp (h n hn'.1) with heq | hmem
      · exfalso
        have : n = m := by injection heq
        simp [this] at hn'
      · exact hmem
    | unmountConfig =>
      have hn' : n ∈ st.devicesRunning := by simpa [applyRevert] using hn
      rcases List.mem_cons.mp (h n hn') with heq | hmem
      · cases heq
      · exact hmem
    | runConfRevert m =>
      have hn' : n ∈ st.devicesRunning := by simpa [applyRevert] using hn
      rcases List.mem_cons.mp (h n hn') with heq | hmem
      · cases heq
      · exact hmem
    | clearConfigDrive =>
      have hn' : n ∈ st.devicesRunning := by simpa [applyRevert] using hn
      rcases List.mem_cons.mp (h n hn') with heq | hmem
      · cases heq
      · exact hmem
    | killProcess =>
      have hn' : n ∈ st.devicesRunning := by simpa [applyRevert] using hn
      rcases List.mem_cons.mp (h n hn') with heq | hmem
      · cases heq
      · exact hmem

/-- Helper: the device start loop only extends the reverter (new closures on
top), keeps every running device covered by a stop closure, and leaves all
non-device resource flags unchanged, in both its outcomes. -/
theorem deviceStartLoop_spec (ds : List DeviceSpec) :
    ∀ (i : Nat) (st : StartState) (rev : List RevertAction),
    (∀ n ∈ st.devicesRunning, RevertAction.stopDevice n ∈ rev) →
    (∃ pre, (deviceStartLoop ds i st rev).2.1 = pre ++ rev)
    ∧ (∀ n ∈ (deviceStartLoop ds i st rev).1.devicesRunning,
        RevertAction.stopDevice n ∈ (deviceStartLoop ds i st rev).2.1)
    ∧ (deviceStartLoop ds i st rev).1.configMounted = st.configMounted
    ∧ (deviceStartLoop ds i st rev).1.configDriveMounted = st.configDriveMounted
    ∧ (deviceStartLoop ds i st rev).1.configDriveDirCreated = st.configDriveDirCreated
    ∧ (deviceStartLoop ds i st rev).1.killRegistered = st.killRegistered
    ∧ (deviceStartLoop ds i st rev).1.processKilled = st.processKilled
    ∧ (deviceStartLoop ds i st rev).1.processSpawned = st.processSpawned
    ∧ (deviceStartLoop ds i st rev).1.committed = st.committed := by
  induction ds with
  | nil =>
    intro i st rev hcov
    exact ⟨⟨[], rfl⟩, hcov, rfl, rfl, rfl, rfl, rfl, rfl, rfl⟩
  | cons d ds ih =>
    intro i st rev hcov
    by_cases hf : d.startFails = true
    · have heq : deviceStartLoop (d :: ds) i st rev = (st, rev, true) := by
        simp [deviceStartLoop, hf]
      rw [heq]
      exact ⟨⟨[], rfl⟩, hcov, rfl, rfl, rfl, rfl, rfl, rfl, rfl⟩
    · simp only [deviceStartLoop, hf, Bool.false_eq_true, if_false]
      set st' : StartState := { st with devicesRunning := st.devicesRunning ++ [i] } with hst'
      set rev' : List RevertAction :=
        if d.hasRevert then
          RevertAction.runConfRevert i :: RevertAction.stopDevice i :: rev
        else
          RevertAction.stopDevice i :: rev with hrev'
      have hcov' : ∀ n ∈ st'.devicesRunning, RevertAction.stopDevice n ∈ rev' := by
        intro n hn
        have hn' : n ∈ st.devicesRunning ∨ n = i := by
          simpa [hst'] using hn
        have hbase : RevertAction.stopDevice n ∈ RevertAction.stopDevice i :: rev := by
          rcases hn' with hmem | rfl

          · exact List.mem_cons_of_mem _ (hcov n hmem)
          · exact List.mem_cons_self _ _
        rw [hrev']
        by_cases hr : d.hasRevert = true
        · rw [if_pos hr]
          exact List.mem_cons_of_mem _ hbase
        · rw [if_neg hr]
          exact hbase
      obtain ⟨⟨pre, hpre⟩, hcovr, hcm, hcd, hcdc, hkr, hpk, hps, hcomm⟩ := ih (i + 1) st' rev' hcov'
      refine ⟨?_, hcovr, by rw [hcm], by rw [hcd], by rw [hcdc],
        by rw [hkr], by rw [hpk], by rw [hps], by rw [hcomm]⟩
      refine ⟨pre ++ (if d.hasRevert then
        [RevertAction.runConfRevert i, RevertAction.stopDevice i]
        else [RevertAction.stopDevice i]), ?_⟩
      rw [List.append_assoc, hpre, hrev']
      by_cases hr : d.hasRevert = true <;> simp [hr]

/-- Helper: a reverter that contains the unmount closure, covers the
config drive (not yet mounted, or clear closure present), covers every
running device and covers the kill (not yet registered, or kill closure
present) unwinds to a clean state. -/
theorem runReverter_clean (st : StartState) (rev : List RevertAction)
    (hum : RevertAction.unmountConfig ∈ rev)
    (hcd : st.configDriveMounted = false ∨ RevertAction.clearConfigDrive ∈ rev)
    (hcov : ∀ n ∈ st.devicesRunning, RevertAction.stopDevice n ∈ rev)
    (hkill : st.killRegistered = false ∨ RevertAction.killProcess ∈ rev) :
    (runReverter rev st).configMounted = false
    ∧ (runReverter rev st).configDriveMounted = false
    ∧ (runReverter rev st).devicesRunning = []
    ∧ ((runReverter rev st).killRegistered = true →
        (runReverter rev st).processKilled = true) := by
  refine ⟨runReverter_unmount st hum, ?_, runReverter_devices_nil st hcov, ?_⟩
  · rcases hcd with h | h
    · exact runReverter_configDrive_false st h
    · exact runReverter_clearConfigDrive st h
  · intro h
    rcases hkill with hk | hk
    · rw [runReverter_killRegistered] at h
      rw [hk] at h
      exact absurd h Bool.false_ne_true
    · exact runReverter_killProcess st hk

/-- Counterexample to claim C1: when everything up to and including
`recordLastState` succeeds, `reverter.Success()` runs, and then the
post-start hook fails, the run returns an error with the QEMU process
spawned but the `killQemuProcess` revert closure never run, the config
volume still mounted, and only a best-effort `d.Stop(false)` issued (its
error is discarded) — so the reverter does not unwind this failed start. -/
theorem start_postHook_failure_skips_reverter :
    (qemuStart startHookFailEnv).failed = true
    ∧ (qemuStart startHookFailEnv).finalState.processSpawned = true
    ∧ (qemuStart startHookFailEnv).finalState.processKilled = false
    ∧ (qemuStart startHookFailEnv).finalState.configMounted = true
    ∧ (qemuStart startHookFailEnv).finalState.stopInvoked = true := by
  exact ⟨rfl, rfl, rfl, rfl, rfl⟩

/-- Claim C1 as amended: for every run of `start()` that fails at any step
after the operation lock is acquired and before the reverter is committed
(`reverter.Success()`, reached just before the post-start hooks), the
reverter unwinds every acquisition registered so far: the config volume is
unmounted, the config-drive mount is cleared, every device started so far is
stopped, and the `killQemuProcess` closure runs whenever it had been
registered (the spawned process's PID had been confirmed). Failures in the
post-start hooks, after the commit, instead trigger a best-effort
`Stop(false)`; and in the window between a successful spawn and the PID
confirmation the kill closure is not yet registered. -/
theorem start_reverter_unwinds_before_commit (env : StartEnv) :
    (qemuStart env).failed = true →
    (qemuStart env).finalState.committed = false →
    (qemuStart env).finalState.configMounted = false
    ∧ (qemuStart env).finalState.configDriveMounted = false
    ∧ (qemuStart env).finalState.devicesRunning = []
    ∧ ((qemuStart env).finalState.killRegistered = true →
        (qemuStart env).finalState.processKilled = true) := by
  intro hfail hcommit
  simp only [qemuStart] at hfail hcommit ⊢
  by_cases c1 : env.failPreMount = true
  · rw [if_pos c1]
    exact ⟨rfl, rfl, rfl, fun h => absurd h Bool.false_ne_true⟩
  rw [if_neg c1] at hfail hcommit ⊢
  by_cases c2 : env.failMount = true
  · rw [if_pos c2]
    exact ⟨rfl, rfl, rfl, fun h => absurd h Bool.false_ne_true⟩
  rw [if_neg c2] at hfail hcommit ⊢
  by_cases c3 : env.failPreDevices = true
  · rw [if_pos c3]
    exact runReverter_clean startStateMounted startRev1 (by simp [startRev1])
      (Or.inl rfl)
      (by intro n hn; simp [startStateMounted, initStartState] at hn)
      (Or.inl rfl)
  rw [if_neg c3] at hfail hcommit ⊢
  have hspec := deviceStartLoop_spec env.devices 0 startStateMounted startRev1
    (by intro n hn; simp [startStateMounted, initStartState] at hn)
  generalize hloop : deviceStartLoop env.devices 0 startStateMounted startRev1 = res
    at hfail hcommit hspec ⊢
  obtain ⟨st2, rev2, b⟩ := res
  dsimp only at hfail hcommit hspec ⊢
  obtain ⟨⟨pre, hpre⟩, hcov, hcm, hcd, hcdc, hkr, hpk, hps, hcomm⟩ := hspec
  have hum : RevertAction.unmountConfig ∈ rev2 := by
    rw [hpre]
    exact List.mem_append_right _ (by simp [startRev1])
  have hcd' : st2.configDriveMounted = false := by rw [hcd]; rfl
  have hkr' : st2.killRegistered = false := by rw [hkr]; rfl
  have hclean2 := runReverter_clean st2 rev2 hum (Or.inl hcd') hcov (Or.inl hkr')
  cases b with
  | true => exact hclean2
  | false =>
    rw [if_neg Bool.false_ne_true] at hfail hcommit ⊢
    by_cases c4 : env.failConfigDriveClear = true
    · rw [if_pos c4]
      exact hclean2
    rw [if_neg c4] at hfail hcommit ⊢
    by_cases c5 : env.failConfigDriveMkdir = true
    · rw [if_pos c5]
      exact hclean2
    rw [if_neg c5] at hfail hcommit ⊢
    have hum3 : RevertAction.unmountConfig ∈ RevertAction.clearConfigDrive :: rev2 :=
      List.mem_cons_of_mem _ hum
    have hclear3 : RevertAction.clearConfigDrive ∈ RevertAction.clearConfigDrive :: rev2 :=
      List.mem_cons_self _ _
    have hcov3 : ∀ n ∈ st2.devicesRunning,
        RevertAction.stopDevice n ∈ RevertAction.clearConfigDrive :: rev2 :=
      fun n hn => List.mem_cons_of_mem _ (hcov n hn)
    by_cases c6 : env.failConfigDriveMount = true
    · rw [if_pos c6]
      exact runReverter_clean _ _ hum3 (Or.inr hclear3) hcov3 (Or.inl hkr')
    rw [if_neg c6] at hfail hcommit ⊢
    by_cases c7 : env.failPreSpawn = true
    · rw [if_pos c7]
      exact runReverter_clean _ _ hum3 (Or.inr hclear3) hcov3 (Or.inl hkr')
    rw [if_neg c7] at hfail hcommit ⊢
    by_cases c8 : env.failSpawn = true
    · rw [if_pos c8]
      exact runReverter_clean _ _ hum3 (Or.inr hclear3) hcov3 (Or.inl hkr')
    rw [if_neg c8] at hfail hcommit ⊢
    by_cases c9 : env.failWait = true
    · rw [if_pos c9]
      exact runReverter_clean _ _ hum3 (Or.inr hclear3) hcov3 (Or.inl hkr')
    rw [if_neg c9] at hfail hcommit ⊢
    by_cases c10 : env.failPid = true
    · rw [if_pos c10]
      exact runReverter_clean _ _ hum3 (Or.inr hclear3) hcov3 (Or.inl hkr')
    rw [if_neg c10] at hfail hcommit ⊢
    by_cases c11 : env.failPostPid = true
    · rw [if_pos c11]
      exact runReverter_clean _ _ (List.mem_cons_of_mem _ hum3)
        (Or.inr (List.mem_cons_of_mem _ hclear3))
        (fun n hn => List.mem_cons_of_mem _ (hcov3 n hn))
        (Or.inr (List.mem_cons_self _ _))
    rw [if_neg c11] at hfail hcommit ⊢
    by_cases c12 : env.failPostStartHooks = true
    · rw [if_pos c12] at hcommit
      exact absurd hcommit (by simp)
    rw [if_neg c12] at hfail
    exact absurd hfail (by simp)

/-- Witness for `start_reverter_unwinds_before_commit`: a run with two started
devices that fails right after the PID was confirmed (QMP connect fails)
reverts to a clean state: volume unmounted, config drive cleared, no device
running, process killed. -/
theorem start_reverter_unwinds_witness :
    (qemuStart startPostPidFailEnv).finalState.configMounted = false
    ∧ (qemuStart startPostPidFailEnv).finalState.devicesRunning = []
    ∧ ((qemuStart startPostPidFailEnv).finalState.killRegistered = true →
        (qemuStart startPostPidFailEnv).finalState.processKilled = true) := by
  have h := start_reverter_unwinds_before_commit startPostPidFailEnv rfl rfl
  exact ⟨h.1, h.2.2.1, h.2.2.2⟩

end Incus
